import Mathlib

/-!
Verification of the rosgo publish/subscribe core: a shallow embedding of the
node coordinator (`node.go`), the topic publisher and its per-connection
sessions (the publisher engine source file), together with proofs about the
claims of the specification.

Conventions of the embedding:
* Go maps keyed by strings become association lists (`mapLookup` / `mapInsert`),
  with Go's zero-value-on-missing-key behaviour made explicit where the code
  relies on it.
* XML-RPC `interface` values become the inductive `RosValue`; an unchecked Go
  type assertion that can fail becomes an `Option`, with `none` standing for a
  runtime panic (no defined result).
* Channels and goroutine interleavings become explicit event schedules; the
  sequential bodies of the loops are transcribed statement by statement.
-/

namespace Rosgo

/-- Association-list lookup, modelling a read `m[k]` of a Go map with string
keys (`node.subscribers`, `node.publishers`, `node.servers`). -/
def mapLookup {α : Type} : List (String × α) → String → Option α
  | [], _ => none
  | (k, v) :: rest, key => if k = key then some v else mapLookup rest key

/-- Association-list insert, modelling a write `m[k] = v` of a Go map:
an existing binding for the key is overwritten, otherwise the binding is new. -/
def mapInsert {α : Type} : List (String × α) → String → α → List (String × α)
  | [], key, v => [(key, v)]
  | (k, w) :: rest, key, v =>
    if k = key then (k, v) :: rest else (k, w) :: mapInsert rest key v

/-- A TCPROS message payload: the opaque `[]byte` produced by `msg.Serialize()`. -/
abbrev Payload := List Nat

/-! ### Session pending queue (publisher engine source, remoteSubscriberSession.start, step 3)

The streaming loop keeps `queue := list.New()` with `queueMaxSize := 100`.
On each arrival from `session.msgChan` it runs:
`if queue.Len() == queueMaxSize { queue.Remove(queue.Front()) }; queue.PushBack(msg)`. -/

/-- The fixed capacity `queueMaxSize` of a session's pending queue. -/
def queueMaxSize : Nat := 100

/-- One enqueue step of the session streaming loop (the `msgChan` case):
drop the oldest pending entry when the queue is at capacity, then append. -/
def sessionEnqueue (queue : List Payload) (msg : Payload) : List Payload :=
  let q := if queue.length = queueMaxSize then queue.drop 1 else queue
  q ++ [msg]

/-- The queue state after enqueueing `msgs` in order onto an empty queue,
with no intervening timer drains. -/
def enqueueAll (msgs : List Payload) : List Payload :=
  msgs.foldl sessionEnqueue []

/-! ### Connection header and session handshake (remoteSubscriberSession.start, steps 1-2) -/

/-- One key/value pair of a TCPROS connection header (the Go `header` struct). -/
structure header where
  key : String
  value : String
deriving DecidableEq, Repr

/-- The map built from the received header fields:
`for _, h := range headers { headerMap[h.key] = h.value }`, read with Go map
semantics (a later duplicate key overwrites, a missing key reads as `""`). -/
def buildHeaderMap (hs : List header) (k : String) : String :=
  match hs.reverse.find? (fun h => h.key == k) with
  | some h => h.value
  | none => ""

/-- An observable write of the session to its peer socket: either the
response connection header or one length-prefixed data frame. -/
inductive WireEvent where
  | respHeader (hs : List header)
  | frame (payload : Payload)
deriving DecidableEq, Repr

/-- One iteration input of the streaming loop's `select`: a payload arriving
on `session.msgChan`, a 10 ms timer tick, or a signal on `session.quitChan`. -/
inductive LoopEvent where
  | msgArrive (p : Payload)
  | tick
  | quit
deriving DecidableEq, Repr

/-- The streaming loop (step 3 of `remoteSubscriberSession.start`) run over an
explicit schedule of `select` outcomes, threading the pending queue and
recording each data frame written to the socket.  A `tick` with a non-empty
queue removes the front entry and writes it as one frame. -/
def streamLoop : List LoopEvent → List Payload → List WireEvent
  | [], _ => []
  | .msgArrive p :: rest, q => streamLoop rest (sessionEnqueue q p)
  | .tick :: rest, q =>
    match q with
    | [] => streamLoop rest []
    | m :: qrest => .frame m :: streamLoop rest qrest
  | .quit :: _, _ => []

/-- `remoteSubscriberSession.start` as the trace of socket writes it performs,
given the already-decoded peer header fields and a schedule for the streaming
loop.  Step 1 checks `headerMap["type"] != session.typeName ||
headerMap["md5sum"] != session.md5sum` and panics on mismatch (the deferred
recover reports the error upstream; nothing has been written).  Step 2 writes
the response header carrying the publisher's own `md5sum` and `type`;
step 3 is the streaming loop. -/
def sessionStart (typeName md5sum : String) (hs : List header)
    (sched : List LoopEvent) : List WireEvent :=
  if buildHeaderMap hs "type" ≠ typeName ∨ buildHeaderMap hs "md5sum" ≠ md5sum then
    []
  else
    .respHeader [⟨"md5sum", md5sum⟩, ⟨"type", typeName⟩] :: streamLoop sched []

/-! ### Publisher control loop, session-error case (defaultPublisher.start)

`sessionErrorChan` is declared `chan error`; a failing session's deferred
recover sends the *error value* on it.  The control loop receives that value
(`case session, err := <-pub.sessionErrorChan`) and walks `pub.sessions`
(which holds `*remoteSubscriberSession` values), removing the first element
whose value compares equal to the received one, then breaks. -/

/-- A dynamic Go value that can appear in the comparison `e.Value == session`
of the control loop: a session object (identified by its pointer) or an
error object. -/
inductive GoVal where
  | sessObj (id : Nat)
  | errObj (msg : String)
deriving DecidableEq, Repr

/-- The session-error case of `defaultPublisher.start`: remove from the live
list the first element equal to the value received on `sessionErrorChan`,
then break out of the scan. -/
def removeFirstEq (received : GoVal) : List GoVal → List GoVal
  | [] => []
  | v :: rest => if v = received then rest else v :: removeFirstEq received rest

/-! ### Node coordinator (node.go): data model -/

/-- XML-RPC API status codes (node.go constants). -/
def APIStatusError : Int := -1

/-- Status code for a failed slave API call. -/
def APIStatusFailure : Int := 0

/-- Status code for a successful slave API call. -/
def APIStatusSuccess : Int := 1

/-- The registered state of one `*defaultPublisher` that the node handlers
read: its listening endpoint (`pub.hostAndPort()`, the port already parsed as
an integer) and its message type's name.  `id` stands for the Go pointer
identity of the object. -/
structure PubObj where
  id : Nat
  msgTypeName : String
  host : String
  port : Int
deriving DecidableEq, Repr

/-- The registered state of one `*defaultSubscriber` that the node handlers
read: `id` stands for the pointer identity, `msgTypeName` for
`s.msgType.Name()`. -/
structure SubObj where
  id : Nat
  msgTypeName : String
deriving DecidableEq, Repr

/-- A dynamic XML-RPC `interface` value as the node handlers use it: a
string, an integer, or a raw `*defaultPublisher` object (which
`getPublications` puts into its reply pairs). -/
inductive RosValue where
  | str (s : String)
  | int (n : Int)
  | pubObj (p : PubObj)
deriving DecidableEq, Repr

/-- The Go type assertion `v.(string)`: `some` on a string, otherwise the
assertion fails. -/
def asString : RosValue → Option String
  | .str s => some s
  | _ => none

/-- A slave API reply `buildRosAPIResult(code, message, value)`: per the RPC
convention every response is the 3-tuple (statusCode, message, value); the
type of the value part varies per handler. -/
structure APIResult (α : Type) where
  code : Int
  message : String
  value : α
deriving DecidableEq, Repr

/-- The node state the modelled handlers touch: the liveness flag `node.ok`,
the three registries, and a log of the lists sent to subscribers'
`pubListChan` channels (as pairs of subscriber identity and URI list). -/
structure NodeState where
  ok : Bool
  publishers : List (String × PubObj)
  subscribers : List (String × SubObj)
  servers : List (String × Nat)
  delivered : List (Nat × List String)
deriving DecidableEq, Repr

/-- The registries and flags of a freshly constructed node
(`newDefaultNode`): empty maps and `node.ok = true`. -/
def initNode : NodeState :=
  { ok := true, publishers := [], subscribers := [], servers := [], delivered := [] }

/-! ### Node slave API handlers (node.go) -/

/-- `defaultNode.getSubscriptions`: success, one `(topic, s.msgType.Name())`
pair per registered subscriber. -/
def getSubscriptions (st : NodeState) : APIResult (List (String × RosValue)) :=
  ⟨APIStatusSuccess, "Success",
    st.subscribers.map (fun s => (s.1, RosValue.str s.2.msgTypeName))⟩

/-- `defaultNode.getPublications`: success, one pair per registered
publisher, built as a two-element array of `topic` and `typ`, where `typ`
ranges over the *values* of the `node.publishers` map — i.e. the second
component is the `*defaultPublisher` object itself, not a type name. -/
def getPublications (st : NodeState) : APIResult (List (String × RosValue)) :=
  ⟨APIStatusSuccess, "Success",
    st.publishers.map (fun p => (p.1, RosValue.pubObj p.2))⟩

/-- The conversion loop of `defaultNode.publisherUpdate`, which ranges over
the list and stores `URI.(string)` for each element.  `none` models the
panic of the unchecked type assertion on the first non-string element. -/
def stringsOf : List RosValue → Option (List String)
  | [] => some []
  | v :: rest =>
    match asString v with
    | none => none
    | some s =>
      match stringsOf rest with
      | none => none
      | some ss => some (s :: ss)

/-- `defaultNode.publisherUpdate`: failure "No such topic" when no subscriber
is registered for the topic; otherwise convert the list to strings (panic on
a non-string element, modelled by `none`), send the URI list on the
subscriber's `pubListChan` (recorded in the delivery log) and return
success. -/
def publisherUpdate (st : NodeState) (topic : String) (publishers : List RosValue) :
    Option (APIResult Int × NodeState) :=
  match mapLookup st.subscribers topic with
  | none => some (⟨APIStatusFailure, "No such topic", 0⟩, st)
  | some sub =>
    match stringsOf publishers with
    | none => none
    | some pubURIs =>
      some (⟨APIStatusSuccess, "Success", 0⟩,
        { st with delivered := st.delivered ++ [(sub.id, pubURIs)] })

/-- One entry of the `protocols` argument of `requestTopic`: the Go code
asserts each element to a value list and its first element to a string
(the protocol name); the pair holds that name and the remaining parameters. -/
abbrev ProtocolOffer := String × List RosValue

/-- The protocol-selection loop of `defaultNode.requestTopic`: scan the
offers; at the first one named "TCPROS" build
`["TCPROS", host, port]` from `pub.hostAndPort()` and break; offers with any
other name are skipped.  An exhausted scan leaves the selection empty. -/
def selectProtocol (pub : PubObj) : List ProtocolOffer → List RosValue
  | [] => []
  | (name, _) :: rest =>
    if name = "TCPROS" then
      [RosValue.str "TCPROS", RosValue.str pub.host, RosValue.int pub.port]
    else
      selectProtocol pub rest

/-- `defaultNode.requestTopic`: failure "No such topic" (value Go `nil`,
modelled `none`) when the topic is not in `node.publishers`; otherwise
success with the selected protocol list — even when that list is empty
because no offer named "TCPROS". -/
def requestTopic (st : NodeState) (topic : String) (protocols : List ProtocolOffer) :
    APIResult (Option (List RosValue)) :=
  match mapLookup st.publishers topic with
  | none => ⟨APIStatusFailure, "No such topic", none⟩
  | some pub => ⟨APIStatusSuccess, "Success", some (selectProtocol pub protocols)⟩

/-! ### Publisher creation (node.go, NewPublisher / NewPublisherWithCallbacks) -/

/-- Modelled from the spec: the `NameResolver` (namespace and remapping
resolution, `node.nameResolver.remap`) is not part of the audited source.
Per the spec, command-line arguments of the form key:=value remap topic
names, and a resolved name is the fully-qualified name after namespace and
remap resolution, so a name with a remapping entry maps to its target and a
relative name (no leading slash) is qualified against the node's
namespace. -/
def specRemap (mapping : List (String × String)) (ns : String) (t : String) : String :=
  match mapLookup mapping t with
  | some v => v
  | none => if t.startsWith "/" then t else ns ++ "/" ++ t

/-- The publisher registry state that `NewPublisherWithCallbacks` touches:
the `node.publishers` map (topic name to publisher identity), a counter
allocating fresh publisher identities (Go pointer identities), and the
number of `registerPublisher` master calls issued so far. -/
structure PubRegistry where
  publishers : List (String × Nat)
  nextId : Nat
  registerCalls : Nat
deriving DecidableEq, Repr

/-- The registry of a fresh node: no publishers, no master calls yet. -/
def initRegistry : PubRegistry := ⟨[], 0, 0⟩

/-- `defaultNode.NewPublisherWithCallbacks` (node.go 334-355): compute
`name := node.nameResolver.remap(topic)`, look up `node.publishers[topic]`
— the raw argument, not the resolved name —, and on a miss call
`registerPublisher` on the master, create a new publisher and store it
under `node.publishers[name]`.  Returns the publisher and the new state. -/
def NewPublisherWithCallbacks (remap : String → String) (topic : String)
    (st : PubRegistry) : Nat × PubRegistry :=
  let name := remap topic
  match mapLookup st.publishers topic with
  | some pub => (pub, st)
  | none =>
    let pub := st.nextId
    (pub, ⟨mapInsert st.publishers name pub, st.nextId + 1, st.registerCalls + 1⟩)

/-- `defaultNode.NewPublisher` (node.go 329-332): resolve the topic name and
delegate to `NewPublisherWithCallbacks`. -/
def NewPublisher (remap : String → String) (topic : String) (st : PubRegistry) :
    Nat × PubRegistry :=
  NewPublisherWithCallbacks remap (remap topic) st

/-! ### Node.Shutdown as a step machine (node.go 490-521)

Each step executes one statement of `defaultNode.Shutdown` (log calls
elided): flip `node.ok`, the three `for ... Shutdown()` loops over the
registries, `waitGroup.Wait()`, `xmlrpcListener.Close()`,
`xmlrpcHandler.WaitForShutdown()`, then return. -/

/-- An observable step of `defaultNode.Shutdown`. -/
inductive SEvent where
  | setOkFalse
  | shutSub (topic : String)
  | shutPub (topic : String)
  | shutSrv (name : String)
  | waitTasks
  | closeListener
  | waitRPCStop
deriving DecidableEq, Repr

/-- The program counter of `defaultNode.Shutdown`: which statement runs
next, with the loop phases carrying the keys not yet iterated. -/
inductive SPhase where
  | phStart
  | phSubs (rem : List String)
  | phPubs (rem : List String)
  | phSrvs (rem : List String)
  | phWait
  | phClose
  | phWaitRPC
  | phDone
deriving DecidableEq, Repr

/-- One small step of `defaultNode.Shutdown`: the event it emits (if any),
the next program point, and the updated node state. -/
def sstep (s : NodeState) : SPhase → Option SEvent × SPhase × NodeState
  | .phStart => (some .setOkFalse, .phSubs (s.subscribers.map Prod.fst), { s with ok := false })
  | .phSubs (t :: rem) => (some (.shutSub t), .phSubs rem, s)
  | .phSubs [] => (none, .phPubs (s.publishers.map Prod.fst), s)
  | .phPubs (t :: rem) => (some (.shutPub t), .phPubs rem, s)
  | .phPubs [] => (none, .phSrvs (s.servers.map Prod.fst), s)
  | .phSrvs (t :: rem) => (some (.shutSrv t), .phSrvs rem, s)
  | .phSrvs [] => (none, .phWait, s)
  | .phWait => (some .waitTasks, .phClose, s)
  | .phClose => (some .closeListener, .phWaitRPC, s)
  | .phWaitRPC => (some .waitRPCStop, .phDone, s)
  | .phDone => (none, .phDone, s)

/-- Run the shutdown machine for `fuel` steps, collecting the emitted
events; `.phDone` is absorbing and emits nothing. -/
def runShutdown : Nat → SPhase → NodeState → List SEvent × SPhase × NodeState
  | 0, p, s => ([], p, s)
  | fuel + 1, p, s =>
    let step := sstep s p
    let rest := runShutdown fuel step.2.1 step.2.2
    (step.1.toList ++ rest.1, rest.2.1, rest.2.2)

/-- Enough fuel for the machine to reach `.phDone` from `.phStart`. -/
def shutdownFuel (s : NodeState) : Nat :=
  s.subscribers.length + s.publishers.length + s.servers.length + 7

/-! ### The operations that can write the node state (for the liveness flag) -/

/-- Every modelled operation that runs against a node's state: the interrupt
handler goroutine (node.go 160-166), the slave API handlers, `Node.Shutdown`,
and the registry writes of subscriber/server creation. -/
inductive NodeOp where
  | interrupt
  | shutdownRPC (callerID msg : String)
  | nodeShutdown
  | publisherUpdateOp (callerID topic : String) (pubs : List RosValue)
  | requestTopicOp (callerID topic : String) (protocols : List ProtocolOffer)
  | getSubscriptionsOp (callerID : String)
  | getPublicationsOp (callerID : String)
  | getMasterUriOp (callerID : String)
  | getPidOp (callerID : String)
  | getBusStatsOp (callerID : String)
  | getBusInfoOp (callerID : String)
  | paramUpdateOp (callerID key : String) (value : RosValue)
  | newSubscriberOp (topic : String) (sub : SubObj)
  | newServiceServerOp (name : String) (srv : Nat)
deriving Repr

/-- The state transition of each operation.  The interrupt handler, the slave
`shutdown` RPC (node.go 236-241) and `Node.Shutdown` (node.go 490-494) write
`node.ok = false`; `publisherUpdate` appends to a subscriber's channel (a
panic on a malformed list leaves the state untouched); the introspection
handlers only read; creation ops write their registry. -/
def nodeApply : NodeOp → NodeState → NodeState
  | .interrupt, s => { s with ok := false }
  | .shutdownRPC _ _, s => { s with ok := false }
  | .nodeShutdown, s => (runShutdown (shutdownFuel s) .phStart s).2.2
  | .publisherUpdateOp _ topic pubs, s =>
    match publisherUpdate s topic pubs with
    | some r => r.2
    | none => s
  | .requestTopicOp _ _ _, s => s
  | .getSubscriptionsOp _, s => s
  | .getPublicationsOp _, s => s
  | .getMasterUriOp _, s => s
  | .getPidOp _, s => s
  | .getBusStatsOp _, s => s
  | .getBusInfoOp _, s => s
  | .paramUpdateOp _ _ _, s => s
  | .newSubscriberOp topic sub, s =>
    { s with subscribers := mapInsert s.subscribers topic sub }
  | .newServiceServerOp name srv, s =>
    { s with servers := mapInsert s.servers name srv }

/-- Run a sequence of node operations from a state. -/
def applyOps (ops : List NodeOp) (s : NodeState) : NodeState :=
  ops.foldl (fun st op => nodeApply op st) s

/-! ### Concrete fixtures used to instantiate the theorems -/

/-- A registered publisher for topic `/chatter`: message type
`std_msgs/String`, listening on 127.0.0.1:40000. -/
def examplePub : PubObj := ⟨0, "std_msgs/String", "127.0.0.1", 40000⟩

/-- A registered subscriber for topic `/chatter` of type `std_msgs/String`. -/
def exampleSub : SubObj := ⟨0, "std_msgs/String"⟩

/-- A live node with one publisher and one subscriber on `/chatter`. -/
def exampleNode : NodeState :=
  { ok := true
    publishers := [("/chatter", examplePub)]
    subscribers := [("/chatter", exampleSub)]
    servers := []
    delivered := [] }

/-! ## Theorems -/

/-- Folding the enqueue step over any starting queue within capacity keeps,
of the concatenated history, exactly the entries past the overflow point. -/
lemma foldl_sessionEnqueue (msgs : List Payload) :
    ∀ q : List Payload, q.length ≤ queueMaxSize →
      msgs.foldl sessionEnqueue q =
        (q ++ msgs).drop (q.length + msgs.length - queueMaxSize) := by
  induction msgs with
  | nil =>
    intro q h
    simp only [List.foldl_nil, List.append_nil, List.length_nil, Nat.add_zero]
    rw [Nat.sub_eq_zero_of_le h, List.drop_zero]
  | cons m rest ih =>
    intro q h
    rw [List.foldl_cons]
    by_cases hq : q.length = queueMaxSize
    · have he : sessionEnqueue q m = q.drop 1 ++ [m] := by
        simp [sessionEnqueue, hq]
      have hlen : (sessionEnqueue q m).length = queueMaxSize := by
        rw [he]
        simp [List.length_drop, hq, queueMaxSize]
      rw [ih _ (le_of_eq hlen), hlen, he]
      have h1 : queueMaxSize + rest.length - queueMaxSize = rest.length := by omega
      have h2 : q.length + (m :: rest).length - queueMaxSize = rest.length + 1 := by
        simp only [List.length_cons]
        omega
      rw [h1, h2]
      have h3 : (q ++ m :: rest).drop (rest.length + 1) =
          ((q ++ m :: rest).drop 1).drop rest.length := by
        rw [List.drop_drop, Nat.add_comm]
      have h4 : (q ++ m :: rest).drop 1 = q.drop 1 ++ m :: rest :=
        List.drop_append_of_le_length
          (by simp only [queueMaxSize] at hq; omega)
      rw [h3, h4, List.append_assoc, List.singleton_append]
    · have he : sessionEnqueue q m = q ++ [m] := by
        simp [sessionEnqueue, hq]
      have hlen : (sessionEnqueue q m).length = q.length + 1 := by
        rw [he]; simp
      have hle : (sessionEnqueue q m).length ≤ queueMaxSize := by
        rw [hlen]; omega
      rw [ih _ hle, hlen, he, List.append_assoc, List.singleton_append]
      have h1 : q.length + 1 + rest.length - queueMaxSize =
          q.length + (m :: rest).length - queueMaxSize := by
        simp only [List.length_cons]; omega
      rw [h1]

/-- C2: starting from an empty pending queue, a sequence of enqueues with no
intervening drains leaves exactly the most recent min(n, 100) payloads, in
their original relative order (the suffix of the history past the overflow
point), and the queue length never exceeds the capacity 100 at any point of
the run. -/
theorem session_queue_drop_oldest (msgs : List Payload) :
    enqueueAll msgs = msgs.drop (msgs.length - queueMaxSize) ∧
    (enqueueAll msgs).length = min msgs.length queueMaxSize ∧
    ∀ k : Nat, (enqueueAll (msgs.take k)).length ≤ queueMaxSize := by
  have key : ∀ ms : List Payload, enqueueAll ms = ms.drop (ms.length - queueMaxSize) := by
    intro ms
    have h := foldl_sessionEnqueue ms [] (by simp)
    simpa [enqueueAll] using h
  refine ⟨key msgs, ?_, ?_⟩
  · rw [key msgs, List.length_drop]
    omega
  · intro k
    rw [key (msgs.take k), List.length_drop]
    omega

/-- C8: the session-error case of the publisher control loop compares the
value received on `sessionErrorChan` — the error object the failing session
sent — against the session objects of the live list, so it never removes
anything: the live-session set is returned unchanged for every error. -/
theorem session_error_removes_nothing (sessions : List Nat) (msg : String) :
    removeFirstEq (GoVal.errObj msg) (sessions.map GoVal.sessObj) =
      sessions.map GoVal.sessObj := by
  induction sessions with
  | nil => rfl
  | cons i rest ih => simp [removeFirstEq, ih]

/-- C1: publisher creation is not idempotent by resolved topic name: with a
resolver mapping "foo" to "/bar", two `NewPublisherWithCallbacks` calls for
the same topic (hence the same resolved name) issue two `registerPublisher`
master calls and the second call returns a different publisher object,
because the code looks the registry up under the unresolved argument while
storing under the resolved name. -/
theorem newPublisher_reregisters_on_same_resolved_name :
    specRemap [("foo", "/bar")] "/ns" "foo" = "/bar" ∧
    (NewPublisherWithCallbacks (specRemap [("foo", "/bar")] "/ns") "foo"
        initRegistry).2.registerCalls = 1 ∧
    (NewPublisherWithCallbacks (specRemap [("foo", "/bar")] "/ns") "foo"
        (NewPublisherWithCallbacks (specRemap [("foo", "/bar")] "/ns") "foo"
          initRegistry).2).2.registerCalls = 2 ∧
    (NewPublisherWithCallbacks (specRemap [("foo", "/bar")] "/ns") "foo"
        (NewPublisherWithCallbacks (specRemap [("foo", "/bar")] "/ns") "foo"
          initRegistry).2).1 ≠
      (NewPublisherWithCallbacks (specRemap [("foo", "/bar")] "/ns") "foo"
        initRegistry).1 := by
  refine ⟨rfl, rfl, rfl, by decide⟩

/-- C9: `getPublications` puts the registered publisher object itself — not
its message type name — as the second component of each reply pair, while
`getSubscriptions` correctly pairs each topic with the subscriber's message
type name. -/
theorem getPublications_pairs_hold_publisher_object :
    getPublications exampleNode =
      ⟨APIStatusSuccess, "Success", [("/chatter", RosValue.pubObj examplePub)]⟩ ∧
    (getPublications exampleNode).value ≠
      [("/chatter", RosValue.str "std_msgs/String")] ∧
    getSubscriptions exampleNode =
      ⟨APIStatusSuccess, "Success", [("/chatter", RosValue.str "std_msgs/String")]⟩ := by
  refine ⟨rfl, by decide, rfl⟩

/-- C3: the session writes to its peer exactly when the received header's
`type` and `md5sum` fields both match the publisher's own; on mismatch the
write trace is empty (no response header and no data frame), and on match
the first write is the response header carrying the publisher's `md5sum`
and `type`. -/
theorem session_handshake_gate (tn md5 : String) (hs : List header)
    (sched : List LoopEvent) :
    (WireEvent.respHeader [⟨"md5sum", md5⟩, ⟨"type", tn⟩] ∈ sessionStart tn md5 hs sched ↔
      (buildHeaderMap hs "type" = tn ∧ buildHeaderMap hs "md5sum" = md5)) ∧
    (¬(buildHeaderMap hs "type" = tn ∧ buildHeaderMap hs "md5sum" = md5) →
      sessionStart tn md5 hs sched = []) ∧
    ((buildHeaderMap hs "type" = tn ∧ buildHeaderMap hs "md5sum" = md5) →
      (sessionStart tn md5 hs sched).head? =
        some (WireEvent.respHeader [⟨"md5sum", md5⟩, ⟨"type", tn⟩])) := by
  by_cases h : buildHeaderMap hs "type" = tn ∧ buildHeaderMap hs "md5sum" = md5
  · have hcond : ¬(buildHeaderMap hs "type" ≠ tn ∨ buildHeaderMap hs "md5sum" ≠ md5) := by
      simp [h.1, h.2]
    simp [sessionStart, hcond, h]
  · have hcond : buildHeaderMap hs "type" ≠ tn ∨ buildHeaderMap hs "md5sum" ≠ md5 := by
      tauto
    simp [sessionStart, hcond, h]

/-- C3 witness: a peer header with the wrong type field produces an empty
write trace. -/
theorem session_handshake_gate_inst :
    sessionStart "std_msgs/String" "h1" [⟨"type", "bad/Type"⟩, ⟨"md5sum", "h1"⟩]
      [LoopEvent.tick] = [] :=
  (session_handshake_gate "std_msgs/String" "h1"
      [⟨"type", "bad/Type"⟩, ⟨"md5sum", "h1"⟩] [LoopEvent.tick]).2.1 (by decide)

/-- The protocol-selection loop finds "TCPROS" anywhere in the offer list
and yields the publisher's endpoint triple, and yields nothing otherwise. -/
lemma selectProtocol_char (pub : PubObj) (protocols : List ProtocolOffer) :
    selectProtocol pub protocols =
      if protocols.any (fun v => v.1 == "TCPROS")
      then [RosValue.str "TCPROS", RosValue.str pub.host, RosValue.int pub.port]
      else [] := by
  induction protocols with
  | nil => rfl
  | cons p rest ih =>
    cases p with
    | mk name params =>
      by_cases h : name = "TCPROS"
      · simp [selectProtocol, h]
      · have hb : (name == "TCPROS") = false := by
          simp [h]
        have hstep : selectProtocol pub ((name, params) :: rest) =
            selectProtocol pub rest := by
          simp [selectProtocol, h]
        rw [hstep, ih, List.any_cons]
        simp only [hb, Bool.false_or]

/-- C4 counterexample: for a published topic whose peer offers only a
non-TCPROS transport, `requestTopic` returns success with an empty protocol
list — not the failure "No such topic" status that the claim states. -/
theorem requestTopic_success_without_tcpros :
    requestTopic exampleNode "/chatter" [("UDPROS", [])] =
      ⟨APIStatusSuccess, "Success", some []⟩ ∧
    requestTopic exampleNode "/chatter" [("UDPROS", [])] ≠
      ⟨APIStatusFailure, "No such topic", none⟩ := by
  refine ⟨rfl, by decide⟩

/-- C4 (amended): `requestTopic` fails with "No such topic" exactly when the
topic is not published; for a published topic it always returns success,
with the publisher's `["TCPROS", host, port]` endpoint when a TCPROS offer
is present and with an empty list when none is. -/
theorem requestTopic_amended (st : NodeState) (topic : String)
    (protocols : List ProtocolOffer) :
    (mapLookup st.publishers topic = none →
      requestTopic st topic protocols = ⟨APIStatusFailure, "No such topic", none⟩) ∧
    (∀ pub, mapLookup st.publishers topic = some pub →
      requestTopic st topic protocols =
        ⟨APIStatusSuccess, "Success",
          some (if protocols.any (fun v => v.1 == "TCPROS")
                then [RosValue.str "TCPROS", RosValue.str pub.host, RosValue.int pub.port]
                else [])⟩) := by
  constructor
  · intro h
    simp [requestTopic, h]
  · intro pub h
    simp [requestTopic, h, selectProtocol_char]

/-- C4 witness: on the example node, a TCPROS offer yields the publisher's
actual listening endpoint. -/
theorem requestTopic_amended_inst :
    requestTopic exampleNode "/chatter" [("TCPROS", [])] =
      ⟨APIStatusSuccess, "Success",
        some [RosValue.str "TCPROS", RosValue.str "127.0.0.1", RosValue.int 40000]⟩ := by
  have h := (requestTopic_amended exampleNode "/chatter" [("TCPROS", [])]).2
    examplePub (by decide)
  simpa [examplePub] using h

/-- C5: `publisherUpdate` for a topic with no registered subscriber returns
failure "No such topic" and leaves the node state unchanged; for a
registered subscriber and an all-string URI list it returns success
"Success" and appends exactly that URI list to the subscriber's channel
delivery log. -/
theorem publisherUpdate_routes (st : NodeState) (topic : String)
    (pubs : List RosValue) :
    (mapLookup st.subscribers topic = none →
      publisherUpdate st topic pubs =
        some (⟨APIStatusFailure, "No such topic", 0⟩, st)) ∧
    (∀ sub uris, mapLookup st.subscribers topic = some sub →
      stringsOf pubs = some uris →
      publisherUpdate st topic pubs =
        some (⟨APIStatusSuccess, "Success", 0⟩,
          { st with delivered := st.delivered ++ [(sub.id, uris)] })) := by
  constructor
  · intro h
    simp [publisherUpdate, h]
  · intro sub uris h hstr
    simp [publisherUpdate, h, hstr]

/-- C5 witness: a publisher update for `/chatter` on the example node is
routed to its subscriber. -/
theorem publisherUpdate_routes_inst :
    publisherUpdate exampleNode "/chatter" [RosValue.str "http://peer:11311"] =
      some (⟨APIStatusSuccess, "Success", 0⟩,
        { exampleNode with
            delivered := exampleNode.delivered ++ [(exampleSub.id, ["http://peer:11311"])] }) :=
  (publisherUpdate_routes exampleNode "/chatter" [RosValue.str "http://peer:11311"]).2
    exampleSub ["http://peer:11311"] (by decide) rfl

/-- A list with a non-string element fails the string-conversion loop. -/
lemma stringsOf_isNone (pubs : List RosValue) (v : RosValue) (hv : v ∈ pubs)
    (hns : asString v = none) : stringsOf pubs = none := by
  induction pubs with
  | nil => cases hv
  | cons a rest ih =>
    cases hv with
    | head => simp [stringsOf, hns]
    | tail _ hmem =>
      have hr := ih hmem
      cases ha : asString a <;> simp [stringsOf, ha, hr]

/-- C10: when a subscriber is registered for the topic and the publishers
list holds a non-string element, `publisherUpdate` has no defined result
(the unchecked type assertion panics) instead of returning a failure
status. -/
theorem publisherUpdate_panics_on_nonstring (st : NodeState) (topic : String)
    (pubs : List RosValue) (sub : SubObj)
    (hsub : mapLookup st.subscribers topic = some sub)
    (v : RosValue) (hv : v ∈ pubs) (hns : asString v = none) :
    publisherUpdate st topic pubs = none := by
  simp [publisherUpdate, hsub, stringsOf_isNone pubs v hv hns]

/-- C10 witness: an integer in the publishers list makes the handler panic
on the example node. -/
theorem publisherUpdate_panics_on_nonstring_inst :
    publisherUpdate exampleNode "/chatter" [RosValue.int 3] = none :=
  publisherUpdate_panics_on_nonstring exampleNode "/chatter" [RosValue.int 3]
    exampleSub (by decide) (RosValue.int 3) (by simp) rfl

/-- Unfolding one step of the shutdown machine run. -/
lemma runShutdown_succ (fuel : Nat) (p : SPhase) (s : NodeState) :
    runShutdown (fuel + 1) p s =
      ((sstep s p).1.toList ++ (runShutdown fuel (sstep s p).2.1 (sstep s p).2.2).1,
       (runShutdown fuel (sstep s p).2.1 (sstep s p).2.2).2.1,
       (runShutdown fuel (sstep s p).2.1 (sstep s p).2.2).2.2) := rfl

/-- The terminal phase is absorbing and emits nothing. -/
lemma runShutdown_done (fuel : Nat) (s : NodeState) :
    runShutdown fuel .phDone s = ([], .phDone, s) := by
  induction fuel with
  | zero => rfl
  | succ n ih => rw [runShutdown_succ]; simp [sstep, ih]

/-- From the wait barrier, the machine emits the three tail events. -/
lemma runShutdown_wait (k : Nat) (s : NodeState) :
    runShutdown (k + 3) .phWait s =
      ([SEvent.waitTasks, SEvent.closeListener, SEvent.waitRPCStop], .phDone, s) := by
  rw [show k + 3 = (k + 2) + 1 from rfl, runShutdown_succ]
  simp only [sstep]
  rw [show k + 2 = (k + 1) + 1 from rfl, runShutdown_succ]
  simp only [sstep]
  rw [runShutdown_succ]
  simp [sstep, runShutdown_done]

/-- From the service-server loop, the machine shuts each server down and
then emits the tail. -/
lemma runShutdown_srvs (k : Nat) (l : List String) (s : NodeState) :
    runShutdown (k + 4 + l.length) (.phSrvs l) s =
      (l.map SEvent.shutSrv ++ [SEvent.waitTasks, SEvent.closeListener, SEvent.waitRPCStop],
       .phDone, s) := by
  induction l with
  | nil =>
    rw [show k + 4 + ([] : List String).length = (k + 3) + 1 from rfl, runShutdown_succ]
    simp [sstep, runShutdown_wait]
  | cons t rem ih =>
    rw [show k + 4 + (t :: rem).length = (k + 4 + rem.length) + 1 from rfl, runShutdown_succ]
    simp [sstep, ih]

/-- From the publisher loop, the machine shuts each publisher down, then the
servers, then emits the tail. -/
lemma runShutdown_pubs (k : Nat) (l : List String) (s : NodeState) :
    runShutdown (k + 5 + s.servers.length + l.length) (.phPubs l) s =
      (l.map SEvent.shutPub ++ s.servers.map (fun x => SEvent.shutSrv x.1) ++
         [SEvent.waitTasks, SEvent.closeListener, SEvent.waitRPCStop],
       .phDone, s) := by
  induction l with
  | nil =>
    have h1 : k + 5 + s.servers.length + ([] : List String).length
        = (k + 4 + s.servers.length) + 1 := by
      simp; omega
    rw [h1, runShutdown_succ]
    have h2 := runShutdown_srvs k (s.servers.map Prod.fst) s
    rw [List.length_map] at h2
    simp [sstep, h2, List.map_map, Function.comp]
  | cons t rem ih =>
    have h1 : k + 5 + s.servers.length + (t :: rem).length
        = (k + 5 + s.servers.length + rem.length) + 1 := by
      simp [List.length_cons]; omega
    rw [h1, runShutdown_succ]
    simp [sstep, ih]

/-- From the subscriber loop, the machine shuts each subscriber down, then
the publishers, then the servers, then emits the tail. -/
lemma runShutdown_subs (k : Nat) (l : List String) (s : NodeState) :
    runShutdown (k + 6 + s.publishers.length + s.servers.length + l.length) (.phSubs l) s =
      (l.map SEvent.shutSub ++ s.publishers.map (fun x => SEvent.shutPub x.1) ++
         s.servers.map (fun x => SEvent.shutSrv x.1) ++
         [SEvent.waitTasks, SEvent.closeListener, SEvent.waitRPCStop],
       .phDone, s) := by
  induction l with
  | nil =>
    have h1 : k + 6 + s.publishers.length + s.servers.length + ([] : List String).length
        = (k + 5 + s.servers.length + s.publishers.length) + 1 := by
      simp; omega
    rw [h1, runShutdown_succ]
    have h2 := runShutdown_pubs k (s.publishers.map Prod.fst) s
    rw [List.length_map] at h2
    simp [sstep, h2, List.map_map, Function.comp]
  | cons t rem ih =>
    have h1 : k + 6 + s.publishers.length + s.servers.length + (t :: rem).length
        = (k + 6 + s.publishers.length + s.servers.length + rem.length) + 1 := by
      simp [List.length_cons]; omega
    rw [h1, runShutdown_succ]
    simp [sstep, ih]

/-- C6: given enough fuel, `Node.Shutdown` runs exactly this sequence from
the start: set the liveness flag false, shut down every subscriber, then
every publisher, then every service server, then wait for all background
tasks, then close the RPC listener, then wait for the RPC server to stop —
and only then reaches the return point, with the final state being the
original one with `ok = false`. -/
theorem node_shutdown_order (s : NodeState) (fuel : Nat) (h : shutdownFuel s ≤ fuel) :
    runShutdown fuel .phStart s =
      (SEvent.setOkFalse ::
         (s.subscribers.map (fun x => SEvent.shutSub x.1) ++
          s.publishers.map (fun x => SEvent.shutPub x.1) ++
          s.servers.map (fun x => SEvent.shutSrv x.1) ++
          [SEvent.waitTasks, SEvent.closeListener, SEvent.waitRPCStop]),
       SPhase.phDone, { s with ok := false }) := by
  obtain ⟨k, hk⟩ : ∃ k, fuel =
      (k + 6 + s.publishers.length + s.servers.length + s.subscribers.length) + 1 := by
    refine ⟨fuel - shutdownFuel s, ?_⟩
    simp only [shutdownFuel] at h ⊢
    omega
  subst hk
  rw [runShutdown_succ]
  have h2 := runShutdown_subs k (s.subscribers.map Prod.fst) { s with ok := false }
  rw [List.length_map] at h2
  simp only [sstep]
  simp only [sstep] at h2 ⊢
  simp [h2, List.map_map, Function.comp]

/-- C6 witness: on the example node (one subscriber, one publisher, no
servers) nine steps suffice and produce the claimed order. -/
theorem node_shutdown_order_inst :
    runShutdown 9 .phStart exampleNode =
      ([SEvent.setOkFalse, SEvent.shutSub "/chatter", SEvent.shutPub "/chatter",
        SEvent.waitTasks, SEvent.closeListener, SEvent.waitRPCStop],
       SPhase.phDone, { exampleNode with ok := false }) := by
  rw [node_shutdown_order exampleNode 9 (by decide)]
  rfl

/-- No single shutdown step turns the liveness flag back on. -/
lemma sstep_ok_mono (s : NodeState) (p : SPhase) :
    ((sstep s p).2.2).ok = true → s.ok = true := by
  cases p with
  | phStart => intro h; simp [sstep] at h
  | phSubs rem => cases rem <;> simp [sstep]
  | phPubs rem => cases rem <;> simp [sstep]
  | phSrvs rem => cases rem <;> simp [sstep]
  | phWait => simp [sstep]
  | phClose => simp [sstep]
  | phWaitRPC => simp [sstep]
  | phDone => simp [sstep]

/-- A shutdown run never turns the liveness flag back on. -/
lemma runShutdown_ok_mono (fuel : Nat) :
    ∀ (p : SPhase) (s : NodeState),
      ((runShutdown fuel p s).2.2).ok = true → s.ok = true := by
  induction fuel with
  | zero => intro p s h; simpa [runShutdown] using h
  | succ n ih =>
    intro p s h
    rw [runShutdown_succ] at h
    exact sstep_ok_mono s p (ih _ _ h)

/-- A successful `publisherUpdate` leaves the liveness flag as it was. -/
lemma publisherUpdate_ok (s : NodeState) (topic : String) (pubs : List RosValue)
    (r : APIResult Int × NodeState) (h : publisherUpdate s topic pubs = some r) :
    r.2.ok = s.ok := by
  unfold publisherUpdate at h
  cases hm : mapLookup s.subscribers topic with
  | none =>
    rw [hm] at h
    simp only [Option.some.injEq] at h
    rw [← h]
  | some sub =>
    rw [hm] at h
    cases hs : stringsOf pubs with
    | none => rw [hs] at h; cases h
    | some uris =>
      rw [hs] at h
      simp only [Option.some.injEq] at h
      rw [← h]

/-- No modelled node operation turns the liveness flag back on. -/
lemma nodeApply_ok_mono (op : NodeOp) (s : NodeState) :
    (nodeApply op s).ok = true → s.ok = true := by
  cases op with
  | interrupt => intro h; simp [nodeApply] at h
  | shutdownRPC c m => intro h; simp [nodeApply] at h
  | nodeShutdown => exact runShutdown_ok_mono _ _ _
  | publisherUpdateOp c topic pubs =>
    intro h
    simp only [nodeApply] at h
    cases hm : publisherUpdate s topic pubs with
    | none => rw [hm] at h; exact h
    | some r =>
      rw [hm] at h
      rw [publisherUpdate_ok s topic pubs r hm] at h
      exact h
  | requestTopicOp c t ps => exact fun h => h
  | getSubscriptionsOp c => exact fun h => h
  | getPublicationsOp c => exact fun h => h
  | getMasterUriOp c => exact fun h => h
  | getPidOp c => exact fun h => h
  | getBusStatsOp c => exact fun h => h
  | getBusInfoOp c => exact fun h => h
  | paramUpdateOp c k v => exact fun h => h
  | newSubscriberOp t sub => exact fun h => h
  | newServiceServerOp n srv => exact fun h => h

/-- Once false, the flag stays false under any operation sequence. -/
lemma applyOps_ok_false (ops : List NodeOp) :
    ∀ s : NodeState, s.ok = false → (applyOps ops s).ok = false := by
  induction ops with
  | nil => intro s h; simpa [applyOps] using h
  | cons op rest ih =>
    intro s h
    have hstep : (nodeApply op s).ok = false := by
      cases hc : (nodeApply op s).ok with
      | false => rfl
      | true => rw [nodeApply_ok_mono op s hc] at h; cases h
    have : applyOps (op :: rest) s = applyOps rest (nodeApply op s) := rfl
    rw [this]
    exact ih _ hstep

/-- C7: the liveness flag starts true at construction, no modelled
operation (interrupt handler, slave API handlers including the peer-facing
shutdown, `Node.Shutdown`, registry writes) ever sets it back to true, and
once false it stays false over every operation sequence. -/
theorem ok_flag_monotone :
    initNode.ok = true ∧
    (∀ (op : NodeOp) (s : NodeState), (nodeApply op s).ok = true → s.ok = true) ∧
    (∀ (ops : List NodeOp) (s : NodeState), s.ok = false → (applyOps ops s).ok = false) :=
  ⟨rfl, nodeApply_ok_mono, fun ops s => applyOps_ok_false ops s⟩

/-- C7 witness: after an interrupt, later operations never revive the
flag. -/
theorem ok_flag_monotone_inst :
    (applyOps [NodeOp.getPidOp "caller", NodeOp.requestTopicOp "caller" "/chatter" []]
      { initNode with ok := false }).ok = false :=
  ok_flag_monotone.2.2
    [NodeOp.getPidOp "caller", NodeOp.requestTopicOp "caller" "/chatter" []]
    { initNode with ok := false } rfl

end Rosgo
